import Mathlib

/-!
Verification of the Financial Document Q&A Assistant (`app.py`).

The file embeds the document-to-metrics pipeline and the Ollama client of the
source: `DocumentProcessor.extract_pdf_text`, `extract_excel_data`,
`extract_financial_metrics`, `process_document`, and
`OllamaClient.generate_response`, and proves theorems about them.
-/

namespace FinQA

/-!
## Metric extraction: `DocumentProcessor.extract_financial_metrics`

Every pattern of the `patterns` table in the source has the shape
`(?:alt1|alt2|...)[\s:$]*([0-9,]+(?:\.[0-9]+)?)` and is run with
`re.findall(pattern, text.lower())`.  The embedding implements exactly this
pattern family:

* the alternatives of each pattern start with pairwise distinct characters,
  so at any text position at most one alternative can match, and committing
  to the first prefix-matching alternative is exact;
* the character classes `[\s:$]` and `[0-9,]` are disjoint, so the greedy
  scan of the separator run needs no backtracking, and the optional
  fractional group can always succeed by matching nothing, so the greedy
  scan of the integer run needs no backtracking either.
-/

/-- The character class `[\s:$]` (ASCII whitespace, colon, dollar; the
non-ASCII whitespace of Python `\s` is irrelevant for the pattern table and
the inputs considered here). -/
def isSepChar (c : Char) : Bool :=
  c == ' ' || c == '\t' || c == '\n' || c == '\r' || c == '\x0b' || c == '\x0c'
    || c == ':' || c == '$'

/-- The character class `[0-9,]`. -/
def isDigitComma (c : Char) : Bool :=
  c.isDigit || c == ','

/-- Length of the first alternative of the alternation that matches at the
head of `cs` (Python tries alternatives left to right; for the pattern table
below at most one alternative can match at a given position). -/
def firstLabel (alts : List (List Char)) (cs : List Char) : Option Nat :=
  alts.findSome? fun a => if a.isPrefixOf cs then some a.length else none

/-- Greedy match of `([0-9,]+(?:\.[0-9]+)?)` at the head of `cs`; returns
the captured characters and the number of characters consumed. -/
def numTokenAt (cs : List Char) : Option (List Char × Nat) :=
  let ds := cs.takeWhile isDigitComma
  if ds.isEmpty then none
  else
    match cs.drop ds.length with
    | '.' :: r2 =>
      let fs := r2.takeWhile Char.isDigit
      if fs.isEmpty then some (ds, ds.length)
      else some (ds ++ '.' :: fs, ds.length + 1 + fs.length)
    | _ => some (ds, ds.length)

/-- Match the whole pattern at the head of `cs`: a label alternative, then
the separator run `[\s:$]*`, then the numeric capture.  Returns the capture
and the total number of characters consumed. -/
def matchAt (alts : List (List Char)) (cs : List Char) : Option (List Char × Nat) :=
  match firstLabel alts cs with
  | none => none
  | some labelLen =>
    let afterLabel := cs.drop labelLen
    let sepLen := (afterLabel.takeWhile isSepChar).length
    match numTokenAt (afterLabel.drop sepLen) with
    | none => none
    | some (cap, k) => some (cap, labelLen + sepLen + k)

/-- The scan of `re.findall`: at each position try the pattern, on success
emit the capture and resume after the matched span, otherwise advance one
character.  `fuel` bounds the recursion; a successful match always consumes
at least one character (`matchAt_consumes`), so starting with
`fuel = cs.length` the fuel never runs out before the text does
(`findAllAux_fuel`). -/
def findAllAux (alts : List (List Char)) : Nat → List Char → List (List Char)
  | _, [] => []
  | 0, _ :: _ => []
  | fuel + 1, c :: rest =>
    match matchAt alts (c :: rest) with
    | some (cap, k) => cap :: findAllAux alts fuel (List.drop k (c :: rest))
    | none => findAllAux alts fuel rest

/-- `re.findall(pattern, cs)` for a pattern of this family: the list of
group-1 captures of the non-overlapping matches, left to right. -/
def reFindall (alts : List (List Char)) (cs : List Char) : List (List Char) :=
  findAllAux alts cs.length cs

/-- `text.lower()` (ASCII case folding; the pattern table and the inputs
considered here are ASCII). -/
def lowerData (t : String) : List Char :=
  t.data.map Char.toLower

/-- `value = matches[0].replace(',', '')`: the capture with every comma
removed. -/
def removeCommas (cs : List Char) : List Char :=
  cs.filter (fun c => c != ',')

/-- Numeric value of a run of decimal digits. -/
def digitsVal (ds : List Char) : Nat :=
  ds.foldl (fun a c => 10 * a + (c.toNat - 48)) 0

/-- `float(value)` on the strings reachable at the call site, with the
parsed value taken as an exact decimal.  A capture with commas removed
matches `[0-9]*` optionally followed by `.[0-9]+` (a trailing dot is
impossible because the fractional part of a capture is nonempty), and on
those strings `float` fails exactly on the empty string.  The parser
rejects everything else, as `float` does on such residues.  The decimal
`int.frac` is the rational `(int * 10 ^ len + frac) / 10 ^ len` where
`len` is the number of fractional digits. -/
def parseDecimal (cs : List Char) : Option ℚ :=
  if cs.isEmpty then none
  else
    match cs.drop (cs.takeWhile Char.isDigit).length with
    | [] => some (mkRat (digitsVal (cs.takeWhile Char.isDigit)) 1)
    | '.' :: fracPart =>
      if !fracPart.isEmpty && fracPart.all Char.isDigit then
        some (mkRat (digitsVal (cs.takeWhile Char.isDigit) * 10 ^ fracPart.length
          + digitsVal fracPart) (10 ^ fracPart.length))
      else none
    | _ => none

/-- A value stored in the `metrics` dict: `float(value)` on success, the
cleaned string `value` itself when `float` raises `ValueError`. -/
inductive MetricValue where
  | num (q : ℚ)
  | str (s : String)
deriving DecidableEq, Repr

/-- The body of the per-metric branch of the extraction loop:
`value = matches[0].replace(',', '')`, then `float(value)` with the
`ValueError` fallback storing `value` itself. -/
def normalizeCapture (cap : List Char) : MetricValue :=
  match parseDecimal (removeCommas cap) with
  | some q => MetricValue.num q
  | none => MetricValue.str (String.mk (removeCommas cap))

/-- The `patterns` table of `extract_financial_metrics`, in declaration
order: each metric name with the alternatives of its label alternation. -/
def patterns : List (String × List String) :=
  [("revenue", ["revenue", "sales", "income"]),
   ("expenses", ["expenses", "costs"]),
   ("profit", ["profit", "net income", "earnings"]),
   ("assets", ["total assets", "assets"]),
   ("liabilities", ["total liabilities", "liabilities"]),
   ("equity", ["equity", "shareholders equity"])]

/-- One iteration of the extraction loop:
`matches = re.findall(pattern, text.lower())`, then the first match is
normalized; no entry is produced when there is no match. -/
def extractOne (lowered : List Char) (alts : List String) : Option MetricValue :=
  match reFindall (alts.map String.data) lowered with
  | [] => none
  | cap :: _ => some (normalizeCapture cap)

/-- `DocumentProcessor.extract_financial_metrics`: the `metrics` dict as an
association list in insertion order (each metric is inserted at most once,
in the declaration order of `patterns`). -/
def extract_financial_metrics (text : String) : List (String × MetricValue) :=
  patterns.filterMap fun p => (extractOne (lowerData text) p.2).map fun v => (p.1, v)

/-!
## Documents: `extract_pdf_text`, `extract_excel_data`, `process_document`
-/

/-- A PDF input as seen through `PyPDF2.PdfReader`: either the text of each
page in document order, or a raised exception with its message. -/
inductive PdfFile where
  | ok (pages : List String)
  | bad (err : String)

/-- A workbook as seen through `pd.read_excel(file, sheet_name=None)`:
either the sheets in workbook order, each with its name and the textual
rendering `df.to_string()` of its dataframe (the dataframe itself is kept
only for display and carries no further information used by the pipeline),
or a raised exception with its message. -/
inductive ExcelFile where
  | ok (sheets : List (String × String))
  | bad (err : String)

/-- `DocumentProcessor.extract_pdf_text`: page texts concatenated, each
followed by a newline; on any exception the handler shows `st.error` and
returns the empty string. -/
def extract_pdf_text : PdfFile → String
  | PdfFile.ok pages => pages.foldl (fun acc p => acc ++ p ++ "\n") ""
  | PdfFile.bad _ => ""

/-- `DocumentProcessor.extract_excel_data`: the sheet dict in sheet order;
on any exception the handler shows `st.error` and returns the empty dict. -/
def extract_excel_data : ExcelFile → List (String × String)
  | ExcelFile.ok sheets => sheets
  | ExcelFile.bad _ => []

/-- An uploaded file together with its `file_type` discriminator. -/
inductive UploadedFile where
  | pdf (f : PdfFile)
  | excel (f : ExcelFile)

/-- The dict returned by `DocumentProcessor.process_document` for a fresh
processor (the UI constructs a new `DocumentProcessor` for every upload, so
`raw_text` and `extracted_data` start empty). -/
structure ExtractionResult where
  raw_text : String
  metrics : List (String × MetricValue)
  excel_sheets : Option (List (String × String)) := none
deriving DecidableEq, Repr

/-- `DocumentProcessor.process_document`: extract the text for the declared
type, combine sheet texts for spreadsheets, then extract the metrics. -/
def process_document : UploadedFile → ExtractionResult
  | UploadedFile.pdf f =>
    { raw_text := extract_pdf_text f
      metrics := extract_financial_metrics (extract_pdf_text f) }
  | UploadedFile.excel f =>
    { raw_text := (extract_excel_data f).foldl (fun acc s => acc ++ s.2 ++ "\n") ""
      metrics := extract_financial_metrics
        ((extract_excel_data f).foldl (fun acc s => acc ++ s.2 ++ "\n") "")
      excel_sheets := some (extract_excel_data f) }

/-!
## The Ollama client: `OllamaClient.generate_response`
-/

/-- Outcome of the `requests.post` call as the handlers of
`generate_response` distinguish them.  `connectTimeout` is
`requests.exceptions.ConnectTimeout`, raised when the bounded wait elapses
while connecting; it is a subclass of `requests.exceptions.ConnectionError`.
`readTimeout` is `requests.exceptions.ReadTimeout`, raised when the bounded
wait elapses while reading; it is not a `ConnectionError` and falls to the
generic handler.  `otherException` covers every other raise inside the
`try` block, including a failure to decode the response body of a 200
reply. -/
inductive RequestResult where
  | response (status : Nat) (answer : String)
  | connectionRefused
  | connectTimeout
  | readTimeout (msg : String)
  | otherException (msg : String)
deriving DecidableEq, Repr

/-- The f-string `full_prompt` of `generate_response`: the context truncated
to its first 2000 characters, embedded with the verbatim question and the
fixed instruction text (indentation and the inlined remark follow the
triple-quoted literal of the source). -/
def full_prompt (prompt context : String) : String :=
  "\n            Context from financial document:\n            "
    ++ context.take 2000
    ++ "  # Limit context to avoid token limits\n            \n            User Question: "
    ++ prompt
    ++ "\n            \n            Please answer the question based on the financial document context provided above. \n            Be specific and use numbers when available. If you cannot find the information, \n            say so clearly.\n            "

/-- `OllamaClient.generate_response`: the string returned for each request
outcome.  Every branch returns an ordinary string; no exception escapes the
`try` and no typed failure exists in the source. -/
def generate_response (prompt context : String) : RequestResult → String
  | RequestResult.response status answer =>
    if status == 200 then answer
    else "Error: Could not connect to Ollama (Status: " ++ toString status ++ ")"
  | RequestResult.connectionRefused =>
    "Error: Could not connect to Ollama. Please make sure Ollama is running on localhost:11434"
  | RequestResult.connectTimeout =>
    "Error: Could not connect to Ollama. Please make sure Ollama is running on localhost:11434"
  | RequestResult.readTimeout msg => "Error: " ++ msg
  | RequestResult.otherException msg => "Error: " ++ msg

/-- Modelled from the spec: the combined document text is "the concatenation
of each sheet textual rendering in sheet order, each followed by a newline";
this definition is the specification side of the refinement checked by the
spreadsheet claim. -/
def concatRenderings : List (String × String) → String
  | [] => ""
  | s :: rest => s.2 ++ "\n" ++ concatRenderings rest

/-!
## Properties of the scan

A successful match always consumes at least one character, so the fuel of
`findAllAux`, chosen as the length of the text, never runs out before the
text does: the fuel value is irrelevant beyond that bound.
-/

theorem numTokenAt_consumes (cs cap : List Char) (k : Nat)
    (h : numTokenAt cs = some (cap, k)) : 1 ≤ k := by
  have hlen : ∀ ds : List Char, ds.isEmpty = false → 1 ≤ ds.length := by
    intro ds hds
    cases ds with
    | nil => simp at hds
    | cons a as => simp
  simp only [numTokenAt] at h
  split at h
  · exact absurd h (by simp)
  · rename_i hds
    rw [Bool.not_eq_true] at hds
    split at h
    · split at h
      · rw [Option.some.injEq, Prod.mk.injEq] at h
        have := hlen _ hds
        omega
      · rw [Option.some.injEq, Prod.mk.injEq] at h
        omega
    · rw [Option.some.injEq, Prod.mk.injEq] at h
      have := hlen _ hds
      omega

theorem matchAt_consumes (alts : List (List Char)) (cs cap : List Char) (k : Nat)
    (h : matchAt alts cs = some (cap, k)) : 1 ≤ k := by
  simp only [matchAt] at h
  split at h
  · exact absurd h (by simp)
  · split at h
    · exact absurd h (by simp)
    · rename_i labelLen heq
      rw [Option.some.injEq, Prod.mk.injEq] at h
      have := numTokenAt_consumes _ _ _ heq
      omega

/-- The fuel of `findAllAux` is irrelevant as soon as it covers the length
of the text, so `reFindall` computes the full scan. -/
theorem findAllAux_fuel (alts : List (List Char)) :
    ∀ (f g : Nat) (cs : List Char), cs.length ≤ f → cs.length ≤ g →
      findAllAux alts f cs = findAllAux alts g cs := by
  intro f
  induction f with
  | zero =>
    intro g cs hf hg
    have : cs = [] := List.eq_nil_of_length_eq_zero (Nat.le_zero.mp hf)
    subst this
    cases g <;> rfl
  | succ f ih =>
    intro g cs hf hg
    cases cs with
    | nil => cases g <;> rfl
    | cons c rest =>
      cases g with
      | zero => simp at hg
      | succ g =>
        simp only [findAllAux]
        cases hm : matchAt alts (c :: rest) with
        | none =>
          simp only [List.length_cons] at hf hg
          exact ih g rest (by omega) (by omega)
        | some ck =>
          obtain ⟨cap, k⟩ := ck
          have hk := matchAt_consumes alts (c :: rest) cap k hm
          have hdrop : (List.drop k (c :: rest)).length = (c :: rest).length - k :=
            List.length_drop k (c :: rest)
          simp only [List.length_cons] at hf hg hdrop
          exact congrArg (fun l => cap :: l)
            (ih g (List.drop k (c :: rest)) (by omega) (by omega))

/-!
## Looking up a metric in the extraction result

The `metrics` dict binds each metric name at most once, in the declaration
order of `patterns`; the two lemmas below reduce a lookup in the extracted
association list to the single extraction step of the metric looked up.
-/

theorem lookup_keyed_filterMap_none {β : Type} (f : String × List String → Option β) :
    ∀ (ps : List (String × List String)) (n : String), n ∉ ps.map Prod.fst →
      List.lookup n (ps.filterMap fun p => (f p).map fun v => (p.1, v)) = none := by
  intro ps
  induction ps with
  | nil =>
    intro n _
    rfl
  | cons p ps ih =>
    intro n hn
    simp only [List.map_cons, List.mem_cons, not_or] at hn
    obtain ⟨h1, h2⟩ := hn
    have hb : (n == p.1) = false := beq_eq_false_iff_ne.mpr h1
    rw [List.filterMap_cons]
    cases hf : f p with
    | none =>
      simp only [Option.map_none']
      exact ih n h2
    | some v =>
      simp only [Option.map_some', List.lookup, hb]
      exact ih n h2

theorem lookup_keyed_filterMap {β : Type} (f : String × List String → Option β) :
    ∀ (ps : List (String × List String)) (n : String) (alts : List String),
      (ps.map Prod.fst).Nodup → (n, alts) ∈ ps →
      List.lookup n (ps.filterMap fun p => (f p).map fun v => (p.1, v)) = f (n, alts) := by
  intro ps
  induction ps with
  | nil =>
    intro n alts _ hmem
    exact absurd hmem (List.not_mem_nil _)
  | cons p ps ih =>
    intro n alts hnd hmem
    simp only [List.map_cons, List.nodup_cons] at hnd
    obtain ⟨hhead, htail⟩ := hnd
    rw [List.filterMap_cons]
    rcases List.mem_cons.mp hmem with heq | htl
    · subst heq
      cases hf : f (n, alts) with
      | none =>
        simp only [Option.map_none']
        have : n ∉ ps.map Prod.fst := hhead
        rw [lookup_keyed_filterMap_none f ps n this]
      | some v =>
        simp only [Option.map_some', List.lookup, beq_self_eq_true]
    · have hne : n ≠ p.1 := by
        intro hcontra
        exact hhead (hcontra ▸ List.mem_map_of_mem Prod.fst htl)
      have hb : (n == p.1) = false := beq_eq_false_iff_ne.mpr hne
      cases hf : f p with
      | none =>
        simp only [Option.map_none']
        exact ih n alts htail htl
      | some v =>
        simp only [Option.map_some', List.lookup, hb]
        exact ih n alts htail htl

/-- Looking up a metric of the pattern table in the extraction result is the
single extraction step of that metric. -/
theorem lookup_extract (t : String) (n : String) (alts : List String)
    (hmem : (n, alts) ∈ patterns) :
    (extract_financial_metrics t).lookup n = extractOne (lowerData t) alts := by
  have hnd : (patterns.map Prod.fst).Nodup := by decide
  exact lookup_keyed_filterMap (fun p => extractOne (lowerData t) p.2) patterns n alts hnd hmem

/-- The extraction step of a metric whose pattern has a match: the first
capture, cleaned and parsed. -/
theorem extract_first_capture (t : String) (n : String) (alts : List String)
    (cap : List Char) (rest : List (List Char))
    (hmem : (n, alts) ∈ patterns)
    (hfind : reFindall (alts.map String.data) (lowerData t) = cap :: rest) :
    (extract_financial_metrics t).lookup n = some (normalizeCapture cap) := by
  rw [lookup_extract t n alts hmem]
  unfold extractOne
  rw [hfind]

/-- The string-append foldl of `process_document` over the sheet dict equals
the specification-side concatenation, for any accumulator. -/
theorem foldl_renderings (sheets : List (String × String)) :
    ∀ acc : String,
      sheets.foldl (fun a s => a ++ s.2 ++ "\n") acc = acc ++ concatRenderings sheets := by
  induction sheets with
  | nil =>
    intro acc
    simp [concatRenderings, String.append_empty]
  | cons s rest ih =>
    intro acc
    rw [List.foldl_cons, ih]
    show acc ++ s.2 ++ "\n" ++ concatRenderings rest = acc ++ concatRenderings (s :: rest)
    simp only [concatRenderings, String.append_assoc]

/-!
## The claims
-/

/-- C1, counterexample: on the input text
"Net income was $45,000 and total assets of 2,000,000" the extraction does
NOT yield profit or assets entries — the words "was" and "of" stand between
the labels and the figures, and the capture rule admits only whitespace,
colon or a currency symbol there, so no pattern matches at all. -/
theorem c1_counterexample :
    (extract_financial_metrics
        ("Net income was $45,000 and total assets of 2,000,000")).lookup ("profit") = none
      ∧ (extract_financial_metrics
          ("Net income was $45,000 and total assets of 2,000,000")).lookup ("assets") = none :=
  ⟨by decide, by decide⟩

/-- C1, amended: on the input text
"Net income was $45,000 and total assets of 2,000,000" metric extraction
yields the empty mapping — every key, including profit and assets, is
absent, because no label is immediately followed (after optional
whitespace, colon or currency symbol) by a numeric token. -/
theorem c1_extraction_empty :
    extract_financial_metrics
      ("Net income was $45,000 and total assets of 2,000,000") = [] := by
  decide

/-- C2, counterexample: for a structurally malformed PDF the read error is
caught inside `extract_pdf_text`, which returns the empty string after
reporting to the UI; `process_document` then completes normally and
produces a full `ExtractionResult` (empty text, empty metrics) instead of
failing with a `DocumentReadError`. -/
theorem c2_counterexample :
    process_document (UploadedFile.pdf (PdfFile.bad ("corrupt PDF stream"))) =
      { raw_text := "", metrics := [], excel_sheets := none } := by
  decide

/-- C2, amended: for every malformed or unreadable PDF, text extraction
swallows the error and returns the empty string, and the whole
document-processing call still completes, producing an `ExtractionResult`
with empty raw text and an empty metrics mapping — no failure is
propagated to the caller. -/
theorem c2_pdf_error_swallowed (e : String) :
    extract_pdf_text (PdfFile.bad e) = ""
      ∧ process_document (UploadedFile.pdf (PdfFile.bad e)) =
        { raw_text := "", metrics := [], excel_sheets := none } :=
  ⟨rfl, rfl⟩

/-- C3, counterexample: when the inference endpoint refuses the connection,
`generate_response` returns an ordinary answer-typed string (the fixed
guidance message), not a typed `ServiceUnavailable` failure — no typed
failure exists in the source, whose return type is always a plain string. -/
theorem c3_counterexample :
    generate_response ("What was revenue?") ("") RequestResult.connectionRefused
      = "Error: Could not connect to Ollama. Please make sure Ollama is running on localhost:11434" :=
  rfl

/-- C3, amended: for every question and context, a refused connection makes
`generate_response` return the fixed string
"Error: Could not connect to Ollama. Please make sure Ollama is running on
localhost:11434" — an ordinary answer string, distinguishable from a real
answer only by its text. -/
theorem c3_connection_refused_string (prompt context : String) :
    generate_response prompt context RequestResult.connectionRefused
      = "Error: Could not connect to Ollama. Please make sure Ollama is running on localhost:11434" :=
  rfl

/-- C4, counterexample: in the text "revenue ,a" the revenue pattern
captures the token "," (a capture can consist of commas only, and can never
contain a letter such as in the claimed example "12,34a"); `float` fails on
the comma-stripped value, and the metric is stored as the comma-stripped
string "" — not as the raw captured string "," kept verbatim. -/
theorem c4_counterexample :
    extract_financial_metrics ("revenue ,a") = [("revenue", MetricValue.str (""))]
      ∧ MetricValue.str ("") ≠ MetricValue.str (",") :=
  ⟨by decide, by decide⟩

/-- C4, amended: for every text in which a metric pattern matches but the
captured numeric token fails to parse as a number, the metric is kept — the
stored value is the comma-stripped capture as a string (not the raw capture
verbatim), and extraction neither discards the metric nor raises. -/
theorem c4_unparsed_capture_stripped (t n : String) (alts : List String)
    (cap : List Char) (rest : List (List Char))
    (hmem : (n, alts) ∈ patterns)
    (hfind : reFindall (alts.map String.data) (lowerData t) = cap :: rest)
    (hfail : parseDecimal (removeCommas cap) = none) :
    (extract_financial_metrics t).lookup n
      = some (MetricValue.str (String.mk (removeCommas cap))) := by
  rw [extract_first_capture t n alts cap rest hmem hfind]
  unfold normalizeCapture
  rw [hfail]

theorem c4_witness :
    (("revenue", ["revenue", "sales", "income"]) ∈ patterns)
      ∧ reFindall (["revenue", "sales", "income"].map String.data)
          (lowerData ("revenue ,a")) = [','] :: []
      ∧ parseDecimal (removeCommas ([','])) = none
      ∧ (extract_financial_metrics ("revenue ,a")).lookup ("revenue")
          = some (MetricValue.str ("")) := by
  refine ⟨by decide, by decide, by decide, ?_⟩
  have h := c4_unparsed_capture_stripped ("revenue ,a") ("revenue")
    (["revenue", "sales", "income"]) ([',']) ([])
    (by decide) (by decide) (by decide)
  rw [h]
  decide

/-- C5: when a metric pattern has at least one match in the text, the
stored value is the normalization of the FIRST (leftmost) capture alone —
the later captures (`rest`, for example restated figures of the same label)
never influence the result, and no aggregate is formed. -/
theorem c5_first_match_wins (t n : String) (alts : List String)
    (cap : List Char) (rest : List (List Char))
    (hmem : (n, alts) ∈ patterns)
    (hfind : reFindall (alts.map String.data) (lowerData t) = cap :: rest) :
    (extract_financial_metrics t).lookup n = some (normalizeCapture cap) :=
  extract_first_capture t n alts cap rest hmem hfind

theorem c5_witness :
    (("revenue", ["revenue", "sales", "income"]) ∈ patterns)
      ∧ reFindall (["revenue", "sales", "income"].map String.data)
          (lowerData ("revenue: 100 ... revenue: 200")) = ['1', '0', '0'] :: [['2', '0', '0']]
      ∧ (extract_financial_metrics ("revenue: 100 ... revenue: 200")).lookup ("revenue")
          = some (MetricValue.num 100) := by
  refine ⟨by decide, by decide, ?_⟩
  have h := c5_first_match_wins ("revenue: 100 ... revenue: 200") ("revenue")
    (["revenue", "sales", "income"]) (['1', '0', '0']) ([['2', '0', '0']])
    (by decide) (by decide)
  rw [h]
  decide

/-- C6: when the first capture of a metric pattern parses as a number (in
particular a well-formed number with thousands separators immediately
following a synonym), the stored value is exactly that number with the
separators removed. -/
theorem c6_wellformed_number_parsed (t n : String) (alts : List String)
    (cap : List Char) (rest : List (List Char)) (q : ℚ)
    (hmem : (n, alts) ∈ patterns)
    (hfind : reFindall (alts.map String.data) (lowerData t) = cap :: rest)
    (hq : parseDecimal (removeCommas cap) = some q) :
    (extract_financial_metrics t).lookup n = some (MetricValue.num q) := by
  rw [extract_first_capture t n alts cap rest hmem hfind]
  unfold normalizeCapture
  rw [hq]

theorem c6_witness :
    (("revenue", ["revenue", "sales", "income"]) ∈ patterns)
      ∧ reFindall (["revenue", "sales", "income"].map String.data)
          (lowerData ("Total Revenue: $1,234,567.89")) = "1,234,567.89".data :: []
      ∧ parseDecimal (removeCommas ("1,234,567.89".data)) = some (1234567.89 : ℚ)
      ∧ (extract_financial_metrics ("Total Revenue: $1,234,567.89")).lookup ("revenue")
          = some (MetricValue.num (1234567.89 : ℚ)) := by
  have hbridge : (1234567.89 : ℚ) = mkRat 123456789 100 := by
    rw [Rat.mkRat_eq_div]
    norm_num
  refine ⟨by decide, by decide, by rw [hbridge]; decide, ?_⟩
  exact c6_wellformed_number_parsed ("Total Revenue: $1,234,567.89") ("revenue")
    (["revenue", "sales", "income"]) ("1,234,567.89".data) ([]) ((1234567.89 : ℚ))
    (by decide) (by decide) (by rw [hbridge]; decide)

/-- C7: when a metric pattern has no match anywhere in the lower-cased text
(no synonym followed by a capturable numeric token), the metric key is
absent from the output mapping — it is never present with a zero or null
value. -/
theorem c7_no_match_absent (t n : String) (alts : List String)
    (hmem : (n, alts) ∈ patterns)
    (hnone : reFindall (alts.map String.data) (lowerData t) = []) :
    (extract_financial_metrics t).lookup n = none := by
  rw [lookup_extract t n alts hmem]
  unfold extractOne
  rw [hnone]

theorem c7_witness :
    (("equity", ["equity", "shareholders equity"]) ∈ patterns)
      ∧ reFindall (["equity", "shareholders equity"].map String.data)
          (lowerData ("no matching labels here")) = []
      ∧ (extract_financial_metrics ("no matching labels here")).lookup ("equity") = none := by
  refine ⟨by decide, by decide, ?_⟩
  exact c7_no_match_absent ("no matching labels here") ("equity")
    (["equity", "shareholders equity"]) (by decide) (by decide)

/-- C8, counterexample: a timeout while reading the inference response is
NOT handled like a refused connection: `ReadTimeout` falls to the generic
handler and yields "Error: " followed by the exception text, a different
string from the connection-refused message, and neither case is a typed
`ServiceUnavailable` failure. -/
theorem c8_counterexample :
    generate_response ("What was revenue?") ("") (RequestResult.readTimeout ("Read timed out."))
      = "Error: Read timed out."
      ∧ generate_response ("What was revenue?") ("") (RequestResult.readTimeout ("Read timed out."))
        ≠ generate_response ("What was revenue?") ("") RequestResult.connectionRefused :=
  ⟨rfl, by decide⟩

/-- C8, amended: for every question and context, a timeout during
connection establishment (`ConnectTimeout`, a `ConnectionError`) yields
exactly the connection-refused answer string, while a read timeout is
caught by the generic handler and yields "Error: " followed by the
exception message — in both cases an ordinary string, never a typed
failure. -/
theorem c8_timeout_strings (prompt context msg : String) :
    generate_response prompt context RequestResult.connectTimeout
      = generate_response prompt context RequestResult.connectionRefused
      ∧ generate_response prompt context (RequestResult.readTimeout msg) = "Error: " ++ msg :=
  ⟨rfl, rfl⟩

/-- C9: for every well-formed workbook the combined document text is the
concatenation of the sheet renderings in workbook sheet order, each
followed by a newline; in particular a two-sheet workbook produces the
first rendering strictly before the second. -/
theorem c9_sheet_concatenation :
    (∀ sheets : List (String × String),
        (process_document (UploadedFile.excel (ExcelFile.ok sheets))).raw_text
          = concatRenderings sheets)
      ∧ (∀ nA nB rA rB : String,
          (process_document (UploadedFile.excel (ExcelFile.ok [(nA, rA), (nB, rB)]))).raw_text
            = rA ++ "\n" ++ (rB ++ "\n")) := by
  constructor
  · intro sheets
    show (extract_excel_data (ExcelFile.ok sheets)).foldl (fun a s => a ++ s.2 ++ "\n") ""
      = concatRenderings sheets
    rw [foldl_renderings]
    exact String.empty_append _
  · intro nA nB rA rB
    show (extract_excel_data (ExcelFile.ok [(nA, rA), (nB, rB)])).foldl
        (fun a s => a ++ s.2 ++ "\n") ""
      = rA ++ "\n" ++ (rB ++ "\n")
    simp [extract_excel_data, List.foldl_cons, List.foldl_nil,
      String.empty_append, String.append_assoc]

/-- C10: for every question, context and request outcome, `generate_response`
is total and returns a plain string: a 200 response is returned unmodified,
and every failure (refused connection, connect or read timeout, non-200
status, any other exception) is returned as an ordinary string beginning
with "Error:", indistinguishable by type from a successful answer. -/
theorem c10_total_error_strings (prompt context : String) (r : RequestResult) :
    (∃ a, r = RequestResult.response 200 a ∧ generate_response prompt context r = a)
      ∨ (∃ tail, generate_response prompt context r = "Error:" ++ tail) := by
  cases r with
  | response status answer =>
    by_cases h : status = 200
    · subst h
      exact Or.inl ⟨answer, rfl, by simp [generate_response]⟩
    · have hb : (status == 200) = false := by
        simp [h]
      refine Or.inr ⟨" Could not connect to Ollama (Status: " ++ toString status ++ ")", ?_⟩
      show (if status == 200 then answer
          else "Error: Could not connect to Ollama (Status: " ++ toString status ++ ")")
        = "Error:" ++ (" Could not connect to Ollama (Status: " ++ toString status ++ ")")
      rw [hb]
      rw [show ("Error: Could not connect to Ollama (Status: " : String)
        = "Error:" ++ " Could not connect to Ollama (Status: " from rfl]
      simp only [Bool.false_eq_true, if_false, String.append_assoc]
  | connectionRefused =>
    exact Or.inr
      ⟨" Could not connect to Ollama. Please make sure Ollama is running on localhost:11434", rfl⟩
  | connectTimeout =>
    exact Or.inr
      ⟨" Could not connect to Ollama. Please make sure Ollama is running on localhost:11434", rfl⟩
  | readTimeout msg =>
    refine Or.inr ⟨" " ++ msg, ?_⟩
    show "Error: " ++ msg = "Error:" ++ (" " ++ msg)
    rw [show ("Error: " : String) = "Error:" ++ " " from rfl, String.append_assoc]
  | otherException msg =>
    refine Or.inr ⟨" " ++ msg, ?_⟩
    show "Error: " ++ msg = "Error:" ++ (" " ++ msg)
    rw [show ("Error: " : String) = "Error:" ++ " " from rfl, String.append_assoc]

end FinQA
